import Mathlib

/-!
Verification of the calendar-app-api repository: a shallow embedding of the
Schema Store (`src/utils/openapi.js`), the Event entity model
(`src/models/Event.js`), the operation handlers (`src/handlers/events.js`)
and the dispatch registration (`src/app.js`), together with theorems that
settle the specification's claims against these definitions.
-/

set_option autoImplicit false

namespace CalendarAppApi

/-- A JavaScript/JSON value, as manipulated by the handlers and the Event
model.  `vundefined` models the `undefined` result of reading an absent
property. -/
inductive JSVal where
  | vundefined
  | vnull
  | vbool (b : Bool)
  | vnum (n : Int)
  | vstr (s : String)
  | vobj (fields : List (String × JSVal))
  | varr (elems : List JSVal)

/-- A JavaScript object: an ordered association list of properties, as JS
objects preserve insertion order and admit no duplicate keys. -/
abbrev Obj := List (String × JSVal)

/-- Property lookup: the first binding of `k`, or `none` when absent. -/
def objLookup : Obj → String → Option JSVal
  | [], _ => none
  | (k1, v1) :: rest, k => if k = k1 then some v1 else objLookup rest k

/-- Property read `o[k]`: the bound value, or `undefined` when absent. -/
def jsGet (o : Obj) (k : String) : JSVal :=
  (objLookup o k).getD .vundefined

/-- Property assignment `o[k] = v`: replaces the binding in place when the
key exists (JS keeps the original insertion position), otherwise appends a
new binding at the end. -/
def objSet : Obj → String → JSVal → Obj
  | [], k, v => [(k, v)]
  | (k1, v1) :: rest, k, v =>
    if k = k1 then (k1, v) :: rest else (k1, v1) :: objSet rest k v

/-- JavaScript truthiness test, as used by `if (!this.id)`: `undefined`,
`null`, `false`, `0`, and the empty string are falsy; objects and arrays
are always truthy. -/
def isFalsy : JSVal → Bool
  | .vundefined => true
  | .vnull => true
  | .vbool b => !b
  | .vnum n => n == 0
  | .vstr s => s.isEmpty
  | .vobj _ => false
  | .varr _ => false

/-- Strict-equality-with-`null` test, as used by `json[key] === null`. -/
def isNull : JSVal → Bool
  | .vnull => true
  | _ => false

/-! ## Schema Store: `src/utils/openapi.js` -/

/-- The `components` section of the parsed OpenAPI document; its `schemas`
sub-section is optional, mirroring the optional chaining
`spec.components?.schemas?.[schemaName]`. -/
structure ComponentsObj where
  schemas : Option (List (String × JSVal))

/-- The parsed OpenAPI document, as far as the Schema Store inspects it:
the `components` section is optional. -/
structure OpenAPIDoc where
  components : Option ComponentsObj

/-- The module-level `cachedSpec` variable: `none` when empty. -/
abbrev SpecCache := Option OpenAPIDoc

/-- `loadOpenAPISpec()`: on a cache miss, parses the document from disk
(`disk` stands for the parse of the file at the fixed path) and caches it;
on a hit, returns the cached document.  Returns the loaded document
together with the cache state after the call. -/
def loadOpenAPISpec (disk : OpenAPIDoc) (cachedSpec : SpecCache) :
    OpenAPIDoc × SpecCache :=
  match cachedSpec with
  | none => (disk, some disk)
  | some spec => (spec, some spec)

/-- `getOpenAPISchema(schemaName)`: loads the spec (through the cache) and
returns `spec.components?.schemas?.[schemaName]` — `none` models the
`undefined` produced by the optional chaining.  Total: never throws. -/
def getOpenAPISchema (disk : OpenAPIDoc) (cachedSpec : SpecCache)
    (schemaName : String) : Option JSVal × SpecCache :=
  let (spec, cache) := loadOpenAPISpec disk cachedSpec
  ((spec.components.bind ComponentsObj.schemas).bind
    (fun ss => List.lookup schemaName ss), cache)

/-- `clearCache()`: resets `cachedSpec` to empty. -/
def clearCache (_ : SpecCache) : SpecCache := none

/-! ## Event entity model: `src/models/Event.js` -/

/-- A single-quote character as a string, used in handler messages such as
`Event with ID <sq><id><sq> not found`. -/
def sq : String := String.singleton (Char.ofNat 39)

/-- `$beforeInsert()`: sets `createdAt` and `updatedAt` to the same
current instant (`now` stands for `new Date().toISOString()`), then, when
`this.id` is falsy, assigns the generated identifier
`evt_ + Math.random().toString(36).substr(2, 9)` (`randomSuffix` stands
for the random part). -/
def eventBeforeInsert (now randomSuffix : String) (self : Obj) : Obj :=
  let r1 := objSet self "createdAt" (.vstr now)
  let r2 := objSet r1 "updatedAt" (.vstr now)
  if isFalsy (jsGet r2 "id") then objSet r2 "id" (.vstr ("evt_" ++ randomSuffix))
  else r2

/-- `$beforeUpdate()`: sets `updatedAt` to the current instant. -/
def eventBeforeUpdate (now : String) (self : Obj) : Obj :=
  objSet self "updatedAt" (.vstr now)

/-- `toJSON()`: starting from the record's plain-object form, deletes the
`createdAt` key, deletes the `updatedAt` key, then deletes every key whose
value is strictly `null`. -/
def eventToJSON (record : Obj) : Obj :=
  (((record.filter (fun p => p.1 ≠ "createdAt")).filter
      (fun p => p.1 ≠ "updatedAt")).filter
    (fun p => !(isNull p.2)))

/-! ## Operation handlers: `src/handlers/events.js`

Each handler performs exactly one storage call through the Event model and
maps its outcome to a response; the embedding therefore takes the storage
outcome as an argument.  A thrown storage error carries the `type`, `code`
and `data` properties the handlers inspect. -/

/-- The properties of a thrown storage error that the handlers inspect:
`error.type` (Objection sets `ValidationError` for schema failures),
`error.code` (PostgreSQL sets `23505` for unique violations), and
`error.data` (per-field validation details). -/
structure StorageError where
  type : Option String
  code : Option String
  data : JSVal

/-- Outcome of the single awaited storage call inside a handler's `try`
block: either a value or a thrown error. -/
inductive StorageOutcome (α : Type) where
  | ok (val : α)
  | err (e : StorageError)

/-- The response a handler writes: `res.status(s).json(body)`. -/
structure Response where
  status : Nat
  body : Obj

/-- `getCalendarEvents`: lists events (the storage call is
`Event.query().orderBy("startDate", "asc")`) and reports the count in the
message, with singular/plural chosen by `length === 1`. -/
def getCalendarEvents (outcome : StorageOutcome (List Obj)) : Response :=
  match outcome with
  | .ok events =>
    let message :=
      if events.length > 0 then
        "Found " ++ toString events.length ++ " event" ++
          (if events.length = 1 then "" else "s")
      else "No events found"
    ⟨200, [("events", .varr (events.map .vobj)), ("message", .vstr message)]⟩
  | .err _ =>
    ⟨500, [("error", .vstr "Internal server error"),
           ("message", .vstr "Failed to fetch events")]⟩

/-- `createCalendarEvent`: inserts the validated body; on success responds
201 with the inserted event; a thrown error is mapped by inspecting
`error.type === "ValidationError"` first, then `error.code === "23505"`,
and otherwise falls through to 500. -/
def createCalendarEvent (outcome : StorageOutcome Obj) : Response :=
  match outcome with
  | .ok event =>
    ⟨201, [("id", jsGet event "id"),
           ("message", .vstr "Event created successfully"),
           ("event", .vobj event)]⟩
  | .err e =>
    if e.type = some "ValidationError" then
      ⟨400, [("error", .vstr "Validation failed"), ("details", e.data)]⟩
    else if e.code = some "23505" then
      ⟨409, [("error", .vstr "Conflict"),
             ("message", .vstr "Event with this ID already exists")]⟩
    else
      ⟨500, [("error", .vstr "Internal server error"),
             ("message", .vstr "Failed to create event")]⟩

/-- `getCalendarEvent`: fetches one event by the `id` path parameter
(`Event.query().findById(id)`, which resolves to `undefined`/`null` when
the row is absent, here `none`). -/
def getCalendarEvent (id : String) (outcome : StorageOutcome (Option Obj)) :
    Response :=
  match outcome with
  | .ok (some event) =>
    ⟨200, [("event", .vobj event),
           ("message", .vstr "Event retrieved successfully")]⟩
  | .ok none =>
    ⟨404, [("error", .vstr "Not found"),
           ("message", .vstr ("Event with ID " ++ sq ++ id ++ sq ++ " not found"))]⟩
  | .err _ =>
    ⟨500, [("error", .vstr "Internal server error"),
           ("message", .vstr "Failed to fetch event")]⟩

/-- `updateCalendarEvent`: patches by id
(`Event.query().patchAndFetchById(id, body)`); an absent row yields 404, a
thrown error is mapped by `error.type === "ValidationError"` to 400, and
every other thrown error — including unique-constraint code `23505` — to
500. -/
def updateCalendarEvent (id : String) (outcome : StorageOutcome (Option Obj)) :
    Response :=
  match outcome with
  | .ok (some updatedEvent) =>
    ⟨200, [("id", jsGet updatedEvent "id"),
           ("message", .vstr "Event updated successfully"),
           ("event", .vobj updatedEvent)]⟩
  | .ok none =>
    ⟨404, [("error", .vstr "Not found"),
           ("message", .vstr ("Event with ID " ++ sq ++ id ++ sq ++ " not found"))]⟩
  | .err e =>
    if e.type = some "ValidationError" then
      ⟨400, [("error", .vstr "Validation failed"), ("details", e.data)]⟩
    else
      ⟨500, [("error", .vstr "Internal server error"),
             ("message", .vstr "Failed to update event")]⟩

/-- `deleteCalendarEvent`: deletes by id (`Event.query().deleteById(id)`
resolves to the number of deleted rows). -/
def deleteCalendarEvent (id : String) (outcome : StorageOutcome Nat) :
    Response :=
  match outcome with
  | .ok deletedCount =>
    if deletedCount = 0 then
      ⟨404, [("error", .vstr "Not found"),
             ("message", .vstr ("Event with ID " ++ sq ++ id ++ sq ++ " not found"))]⟩
    else
      ⟨200, [("id", .vstr id),
             ("message", .vstr "Event deleted successfully")]⟩
  | .err _ =>
    ⟨500, [("error", .vstr "Internal server error"),
           ("message", .vstr "Failed to delete event")]⟩

/-! ## Dispatch registration: `src/app.js` -/

/-- The operationIds bound to handlers in the `api.register({...})` call of
`src/app.js`: `getApiInfo`, `getHealthStatus`, `getCalendarEvents` and
`createCalendarEvent`.  The remaining entries of that call (`notFound`,
`notImplemented`, `validationFail`, `unauthorizedHandler`) are the
library's special fallback handlers, not operation bindings. -/
def registeredOperationIds : List String :=
  ["getApiInfo", "getHealthStatus", "getCalendarEvents", "createCalendarEvent"]

/-- What the dispatch layer does with a request once it has matched a
declared operation and validation has passed. -/
inductive DispatchAction where
  | invokeHandler (opId : String)
  | respondMock (opId : String)
  deriving DecidableEq

/-- Modelled from the spec: the dispatch contract of the third-party
OpenAPI router (`openapi-backend`, not part of this repository) for a
request that matched a declared operation and passed validation — it
invokes the registered handler for the operation's operationId, and when
no handler is registered it falls back to `notImplemented`, which responds
with a schema-derived mock at the operation's first documented success
status.  The registry itself is the one configured in `src/app.js`. -/
def dispatchMatchedValidated (opId : String) : DispatchAction :=
  if opId ∈ registeredOperationIds then .invokeHandler opId
  else .respondMock opId

/-- Modelled from the spec: the operationId of the declared operation
`GET /api/events/{id}` (the OpenAPI document itself is not under `src/`;
the handler comments in `src/handlers/events.js` name the operation
`getCalendarEvent`). -/
def getEventByIdOperationId : String := "getCalendarEvent"

/-! ## Helper lemmas about the JS object model -/

/-- Reading back the key just assigned yields the assigned value. -/
theorem objLookup_objSet_self (o : Obj) (k : String) (v : JSVal) :
    objLookup (objSet o k v) k = some v := by
  induction o with
  | nil => simp [objSet, objLookup]
  | cons p rest ih =>
    cases p with
    | mk k1 v1 =>
      by_cases h1 : k = k1
      · simp [objSet, objLookup, h1]
      · simp [objSet, objLookup, h1, ih]

/-- Assigning key `k` leaves every other key's binding unchanged. -/
theorem objLookup_objSet_ne (o : Obj) (k k' : String) (v : JSVal) (h : k' ≠ k) :
    objLookup (objSet o k v) k' = objLookup o k' := by
  induction o with
  | nil => simp [objSet, objLookup, h]
  | cons p rest ih =>
    cases p with
    | mk k1 v1 =>
      by_cases h1 : k = k1
      · subst h1
        simp [objSet, objLookup, h]
      · by_cases h2 : k' = k1
        · simp [objSet, objLookup, h1, h2]
        · simp [objSet, objLookup, h1, h2, ih]

/-- `jsGet` after `objSet` at the same key. -/
theorem jsGet_objSet_self (o : Obj) (k : String) (v : JSVal) :
    jsGet (objSet o k v) k = v := by
  simp [jsGet, objLookup_objSet_self]

/-- `jsGet` after `objSet` at a different key. -/
theorem jsGet_objSet_ne (o : Obj) (k k' : String) (v : JSVal) (h : k' ≠ k) :
    jsGet (objSet o k v) k' = jsGet o k' := by
  simp [jsGet, objLookup_objSet_ne o k k' v h]

/-- `isNull` decides strict `null` equality. -/
theorem isNull_eq_false_iff (v : JSVal) : isNull v = false ↔ v ≠ JSVal.vnull := by
  cases v <;> simp [isNull]

/-! ## Claim theorems -/

/-- C3: for every result of the list-events storage query, the list
handler returns 200 with `{events, message}`, where the message is
`No events found` when the list is empty, `Found 1 event` (singular) when
it has exactly one element, and `Found N events` (plural) when it has
`N >= 2` elements. -/
theorem getCalendarEvents_count_message (events : List Obj) :
    (getCalendarEvents (.ok events)).status = 200 ∧
    (∃ m : String, (getCalendarEvents (.ok events)).body =
      [("events", .varr (events.map .vobj)), ("message", .vstr m)]) ∧
    (events = [] →
      jsGet (getCalendarEvents (.ok events)).body "message" =
        .vstr "No events found") ∧
    (events.length = 1 →
      jsGet (getCalendarEvents (.ok events)).body "message" =
        .vstr "Found 1 event") ∧
    (2 ≤ events.length →
      jsGet (getCalendarEvents (.ok events)).body "message" =
        .vstr ("Found " ++ toString events.length ++ " events")) := by
  refine ⟨rfl, ⟨_, rfl⟩, ?_, ?_, ?_⟩
  · intro h
    subst h
    rfl
  · intro h
    simp only [getCalendarEvents, h]
    rfl
  · intro h
    have h0 : events.length > 0 := by omega
    have h1 : events.length ≠ 1 := by omega
    have hmsg : "Found " ++ toString events.length ++ " event" ++ "s"
        = "Found " ++ toString events.length ++ " events" :=
      String.append_assoc ("Found " ++ toString events.length) " event" "s"
    simp only [getCalendarEvents, if_pos h0, if_neg h1, hmsg]
    rfl

/-- C3 witness: the three message shapes at concrete query results. -/
theorem getCalendarEvents_count_message_witness :
    jsGet (getCalendarEvents (.ok [])).body "message" =
      .vstr "No events found" ∧
    jsGet (getCalendarEvents (.ok [[("id", .vstr "evt_1")]])).body "message" =
      .vstr "Found 1 event" ∧
    jsGet (getCalendarEvents
        (.ok [[("id", .vstr "evt_1")], [("id", .vstr "evt_2")]])).body "message" =
      .vstr "Found 2 events" :=
  ⟨(getCalendarEvents_count_message []).2.2.1 rfl,
   (getCalendarEvents_count_message [[("id", .vstr "evt_1")]]).2.2.2.1 rfl,
   (getCalendarEvents_count_message
      [[("id", .vstr "evt_1")], [("id", .vstr "evt_2")]]).2.2.2.2 (by decide)⟩

/-- C5: `toJSON` returns the record restricted to the keys other than
`createdAt` and `updatedAt` whose values are not `null` (a shallow copy —
a sublist of the original bindings in their original order), and it is
idempotent. -/
theorem eventToJSON_strips_and_idempotent (record : Obj) (k : String) (v : JSVal) :
    ((k, v) ∈ eventToJSON record ↔
      ((k, v) ∈ record ∧ k ≠ "createdAt" ∧ k ≠ "updatedAt" ∧ v ≠ JSVal.vnull)) ∧
    List.Sublist (eventToJSON record) record ∧
    eventToJSON (eventToJSON record) = eventToJSON record := by
  refine ⟨?_, ?_, ?_⟩
  · simp only [eventToJSON, List.mem_filter, Bool.not_eq_true', isNull_eq_false_iff,
      decide_eq_true_eq, ne_eq]
    tauto
  · exact ((List.filter_sublist _).trans (List.filter_sublist _)).trans
      (List.filter_sublist _)
  · simp only [eventToJSON, List.filter_filter]
    congr 1
    funext p
    cases hp : isNull p.2 <;>
      cases h1 : decide (p.1 = "updatedAt") <;>
        cases h2 : decide (p.1 = "createdAt") <;> simp [hp, h1, h2]

/-- C6: the delete handler returns 404 when the affected-row count is 0,
with a message containing that exact id; 200 with `{id, message}` when the
count is nonzero; and 500 on a thrown storage error. -/
theorem deleteCalendarEvent_outcomes (id : String) (n : Nat) (e : StorageError) :
    (deleteCalendarEvent id (.ok 0)).status = 404 ∧
    jsGet (deleteCalendarEvent id (.ok 0)).body "message" =
      .vstr ("Event with ID " ++ sq ++ id ++ sq ++ " not found") ∧
    (∃ pre post,
      "Event with ID " ++ sq ++ id ++ sq ++ " not found" = pre ++ id ++ post) ∧
    (n ≠ 0 → deleteCalendarEvent id (.ok n) =
      ⟨200, [("id", .vstr id), ("message", .vstr "Event deleted successfully")]⟩) ∧
    (deleteCalendarEvent id (.err e)).status = 500 := by
  refine ⟨rfl, rfl, ?_, ?_, rfl⟩
  · exact ⟨"Event with ID " ++ sq, sq ++ " not found",
      String.append_assoc ("Event with ID " ++ sq ++ id) sq " not found"⟩
  · intro hn
    simp [deleteCalendarEvent, hn]

/-- C6 witness: deleting a present row (count 1) and an absent row
(count 0) at a concrete id. -/
theorem deleteCalendarEvent_outcomes_witness :
    deleteCalendarEvent "evt_123" (.ok 1) =
      ⟨200, [("id", .vstr "evt_123"),
             ("message", .vstr "Event deleted successfully")]⟩ ∧
    (deleteCalendarEvent "evt_123" (.ok 0)).status = 404 :=
  ⟨(deleteCalendarEvent_outcomes "evt_123" 1 ⟨none, none, .vnull⟩).2.2.2.1
      (by decide),
   (deleteCalendarEvent_outcomes "evt_123" 1 ⟨none, none, .vnull⟩).1⟩

/-- C9: the update lifecycle hook sets `updatedAt` to the current instant
and leaves every other key of the record unchanged, in particular `id` and
`createdAt`. -/
theorem eventBeforeUpdate_frame (now : String) (r : Obj) (k : String) :
    jsGet (eventBeforeUpdate now r) "updatedAt" = .vstr now ∧
    (k ≠ "updatedAt" →
      objLookup (eventBeforeUpdate now r) k = objLookup r k) ∧
    objLookup (eventBeforeUpdate now r) "id" = objLookup r "id" ∧
    objLookup (eventBeforeUpdate now r) "createdAt" = objLookup r "createdAt" := by
  refine ⟨jsGet_objSet_self r "updatedAt" (.vstr now), ?_, ?_, ?_⟩
  · intro hk
    exact objLookup_objSet_ne r "updatedAt" k (.vstr now) hk
  · exact objLookup_objSet_ne r "updatedAt" "id" (.vstr now) (by decide)
  · exact objLookup_objSet_ne r "updatedAt" "createdAt" (.vstr now) (by decide)

/-- C9 witness: the hook at a concrete record and a concrete other key. -/
theorem eventBeforeUpdate_frame_witness :
    jsGet (eventBeforeUpdate "2025-02-02T00:00:00.000Z"
        [("id", .vstr "evt_1"), ("title", .vstr "Standup"),
         ("createdAt", .vstr "2025-01-01T00:00:00.000Z"),
         ("updatedAt", .vstr "2025-01-01T00:00:00.000Z")]) "updatedAt" =
      .vstr "2025-02-02T00:00:00.000Z" ∧
    objLookup (eventBeforeUpdate "2025-02-02T00:00:00.000Z"
        [("id", .vstr "evt_1"), ("title", .vstr "Standup"),
         ("createdAt", .vstr "2025-01-01T00:00:00.000Z"),
         ("updatedAt", .vstr "2025-01-01T00:00:00.000Z")]) "title" =
      objLookup
        [("id", .vstr "evt_1"), ("title", .vstr "Standup"),
         ("createdAt", .vstr "2025-01-01T00:00:00.000Z"),
         ("updatedAt", .vstr "2025-01-01T00:00:00.000Z")] "title" :=
  ⟨(eventBeforeUpdate_frame "2025-02-02T00:00:00.000Z"
      [("id", .vstr "evt_1"), ("title", .vstr "Standup"),
       ("createdAt", .vstr "2025-01-01T00:00:00.000Z"),
       ("updatedAt", .vstr "2025-01-01T00:00:00.000Z")] "title").1,
   (eventBeforeUpdate_frame "2025-02-02T00:00:00.000Z"
      [("id", .vstr "evt_1"), ("title", .vstr "Standup"),
       ("createdAt", .vstr "2025-01-01T00:00:00.000Z"),
       ("updatedAt", .vstr "2025-01-01T00:00:00.000Z")] "title").2.1 (by decide)⟩

/-- C10: the update handler maps only storage errors with type
`ValidationError` to 400; every other thrown error — in particular a
unique-constraint violation with code `23505`, which the create handler
maps to 409 — falls through to the generic branch and is returned as 500,
never 409. -/
theorem updateCalendarEvent_no_conflict_branch (id : String) (e : StorageError) :
    (e.type = some "ValidationError" →
      (updateCalendarEvent id (.err e)).status = 400) ∧
    (e.type ≠ some "ValidationError" →
      (updateCalendarEvent id (.err e)).status = 500) ∧
    (e.type ≠ some "ValidationError" → e.code = some "23505" →
      (updateCalendarEvent id (.err e)).status = 500 ∧
      (updateCalendarEvent id (.err e)).status ≠ 409 ∧
      (createCalendarEvent (.err e)).status = 409) := by
  refine ⟨?_, ?_, ?_⟩
  · intro ht
    simp [updateCalendarEvent, ht]
  · intro ht
    simp [updateCalendarEvent, ht]
  · intro ht hc
    simp [updateCalendarEvent, createCalendarEvent, ht, hc]

/-- C10 witness: a unique-constraint error (code 23505, no validation
type) during update yields 500, while the same error at create yields
409. -/
theorem updateCalendarEvent_no_conflict_branch_witness :
    (updateCalendarEvent "evt_123" (.err ⟨none, some "23505", .vnull⟩)).status = 500 ∧
    (updateCalendarEvent "evt_123" (.err ⟨none, some "23505", .vnull⟩)).status ≠ 409 ∧
    (createCalendarEvent (.err ⟨none, some "23505", .vnull⟩)).status = 409 :=
  (updateCalendarEvent_no_conflict_branch "evt_123" ⟨none, some "23505", .vnull⟩).2.2
    (by simp) rfl

/-- C2: the create handler returns 201 with
`{id, message: "Event created successfully", event}` on successful
insertion; a schema-validation error from the storage layer yields 400
with the per-field details; a unique-constraint violation (code `23505`)
yields 409; any other storage error yields 500. -/
theorem createCalendarEvent_outcomes (event : Obj) (e : StorageError) :
    createCalendarEvent (.ok event) =
      ⟨201, [("id", jsGet event "id"),
             ("message", .vstr "Event created successfully"),
             ("event", .vobj event)]⟩ ∧
    (e.type = some "ValidationError" →
      createCalendarEvent (.err e) =
        ⟨400, [("error", .vstr "Validation failed"), ("details", e.data)]⟩) ∧
    (e.type ≠ some "ValidationError" → e.code = some "23505" →
      createCalendarEvent (.err e) =
        ⟨409, [("error", .vstr "Conflict"),
               ("message", .vstr "Event with this ID already exists")]⟩) ∧
    (e.type ≠ some "ValidationError" → e.code ≠ some "23505" →
      (createCalendarEvent (.err e)).status = 500) := by
  refine ⟨rfl, ?_, ?_, ?_⟩
  · intro ht
    simp [createCalendarEvent, ht]
  · intro ht hc
    simp [createCalendarEvent, ht, hc]
  · intro ht hc
    simp [createCalendarEvent, ht, hc]

/-- C2 witness: the four branches at concrete inputs — a successful
insert, a validation error, a unique-constraint violation, and a
connectivity-style error. -/
theorem createCalendarEvent_outcomes_witness :
    createCalendarEvent (.ok [("id", .vstr "evt_1"), ("title", .vstr "Standup")]) =
      ⟨201, [("id", .vstr "evt_1"),
             ("message", .vstr "Event created successfully"),
             ("event", .vobj [("id", .vstr "evt_1"), ("title", .vstr "Standup")])]⟩ ∧
    (createCalendarEvent
        (.err ⟨some "ValidationError", none, .vobj [("title", .vstr "is required")]⟩)).status
      = 400 ∧
    (createCalendarEvent (.err ⟨none, some "23505", .vnull⟩)).status = 409 ∧
    (createCalendarEvent (.err ⟨none, none, .vnull⟩)).status = 500 := by
  refine ⟨(createCalendarEvent_outcomes
      [("id", .vstr "evt_1"), ("title", .vstr "Standup")] ⟨none, none, .vnull⟩).1,
    ?_, ?_, ?_⟩
  · rw [(createCalendarEvent_outcomes []
      ⟨some "ValidationError", none, .vobj [("title", .vstr "is required")]⟩).2.1 rfl]
  · rw [(createCalendarEvent_outcomes [] ⟨none, some "23505", .vnull⟩).2.2.1
      (by simp) rfl]
  · exact (createCalendarEvent_outcomes [] ⟨none, none, .vnull⟩).2.2.2
      (by simp) (by simp)

/-- C7: `getOpenAPISchema` looks up `components.schemas[name]` in the
loaded document and returns `none` (it is a total function — it never
throws) whenever the document has no `components` section, no `schemas`
section, or no entry under that name. -/
theorem getOpenAPISchema_total_lookup (disk : OpenAPIDoc) (cache : SpecCache)
    (name : String) :
    (getOpenAPISchema disk cache name).1 =
      ((loadOpenAPISpec disk cache).1.components.bind ComponentsObj.schemas).bind
        (fun ss => List.lookup name ss) ∧
    ((loadOpenAPISpec disk cache).1.components = none →
      (getOpenAPISchema disk cache name).1 = none) ∧
    (∀ co, (loadOpenAPISpec disk cache).1.components = some co →
      co.schemas = none → (getOpenAPISchema disk cache name).1 = none) ∧
    (∀ co ss, (loadOpenAPISpec disk cache).1.components = some co →
      co.schemas = some ss → List.lookup name ss = none →
      (getOpenAPISchema disk cache name).1 = none) := by
  refine ⟨rfl, ?_, ?_, ?_⟩
  · intro hc
    simp [getOpenAPISchema, hc]
  · intro co hc hs
    simp [getOpenAPISchema, hc, hs]
  · intro co ss hc hs hl
    simp [getOpenAPISchema, hc, hs, hl]

/-- C7 witness: `getSchema("NoSuchSchema")` returns `undefined` on a
document with no `components`, one with no `schemas`, and one without the
entry. -/
theorem getOpenAPISchema_total_lookup_witness :
    (getOpenAPISchema ⟨none⟩ none "NoSuchSchema").1 = none ∧
    (getOpenAPISchema ⟨some ⟨none⟩⟩ none "NoSuchSchema").1 = none ∧
    (getOpenAPISchema ⟨some ⟨some [("Event", .vobj [])]⟩⟩ none "NoSuchSchema").1
      = none :=
  ⟨(getOpenAPISchema_total_lookup ⟨none⟩ none "NoSuchSchema").2.1 rfl,
   (getOpenAPISchema_total_lookup ⟨some ⟨none⟩⟩ none "NoSuchSchema").2.2.1
      ⟨none⟩ rfl rfl,
   (getOpenAPISchema_total_lookup ⟨some ⟨some [("Event", .vobj [])]⟩⟩ none
      "NoSuchSchema").2.2.2 ⟨some [("Event", .vobj [])]⟩ [("Event", .vobj [])]
      rfl rfl rfl⟩

/-- C8: `loadOpenAPISpec` parses and caches the document on first call;
every later call returns the cached value identically (for any disk
contents) until `clearCache`, after which the next load re-reads from
disk; and `getOpenAPISchema` performs the load itself, so a call on an
empty cache populates it and answers from the loaded document. -/
theorem loadOpenAPISpec_caching (disk disk2 d : OpenAPIDoc) (cache : SpecCache)
    (name : String) :
    loadOpenAPISpec disk none = (disk, some disk) ∧
    loadOpenAPISpec disk2 (some d) = (d, some d) ∧
    clearCache cache = none ∧
    loadOpenAPISpec disk2 (clearCache cache) = (disk2, some disk2) ∧
    (getOpenAPISchema disk none name).2 = some disk ∧
    (getOpenAPISchema disk none name).1 =
      (disk.components.bind ComponentsObj.schemas).bind
        (fun ss => List.lookup name ss) := by
  exact ⟨rfl, rfl, rfl, rfl, rfl, rfl⟩

/-- C4 counterexample: a record that already carries an `id` — the empty
string — is not preserved verbatim: `$beforeInsert` tests `!this.id`, the
empty string is falsy, and the supplied identifier is overwritten by a
freshly generated one. -/
theorem eventBeforeInsert_empty_id_overwritten :
    objLookup [(("id" : String), JSVal.vstr "")] "id" = some (JSVal.vstr "") ∧
    jsGet (eventBeforeInsert "2025-01-01T00:00:00.000Z" "abc123def"
        [("id", JSVal.vstr "")]) "id" = JSVal.vstr "evt_abc123def" ∧
    JSVal.vstr "evt_abc123def" ≠ JSVal.vstr "" := by
  refine ⟨rfl, rfl, fun h => absurd (JSVal.vstr.inj h) (by decide)⟩

/-- C4 (amended): `$beforeInsert` sets `createdAt` and `updatedAt` to the
same current-instant string; when the record's `id` is falsy (absent,
null, or the empty string) it assigns a freshly generated `evt_`-prefixed
identifier, and when the `id` is truthy (any non-empty string) that
identifier is preserved verbatim. -/
theorem eventBeforeInsert_amended (now suffix : String) (r : Obj) :
    jsGet (eventBeforeInsert now suffix r) "createdAt" = .vstr now ∧
    jsGet (eventBeforeInsert now suffix r) "updatedAt" = .vstr now ∧
    (isFalsy (jsGet r "id") = true →
      jsGet (eventBeforeInsert now suffix r) "id" = .vstr ("evt_" ++ suffix)) ∧
    (isFalsy (jsGet r "id") = false →
      jsGet (eventBeforeInsert now suffix r) "id" = jsGet r "id") := by
  have hid2 : jsGet (objSet (objSet r "createdAt" (JSVal.vstr now)) "updatedAt"
      (JSVal.vstr now)) "id" = jsGet r "id" := by
    rw [jsGet_objSet_ne _ _ _ _ (by decide), jsGet_objSet_ne _ _ _ _ (by decide)]
  have hcr : jsGet (objSet (objSet r "createdAt" (JSVal.vstr now)) "updatedAt"
      (JSVal.vstr now)) "createdAt" = JSVal.vstr now := by
    rw [jsGet_objSet_ne _ _ _ _ (by decide), jsGet_objSet_self]
  have hup : jsGet (objSet (objSet r "createdAt" (JSVal.vstr now)) "updatedAt"
      (JSVal.vstr now)) "updatedAt" = JSVal.vstr now :=
    jsGet_objSet_self _ _ _
  simp only [eventBeforeInsert, hid2]
  by_cases hf : isFalsy (jsGet r "id") = true
  · simp only [if_pos hf]
    exact ⟨by rw [jsGet_objSet_ne _ _ _ _ (by decide)]; exact hcr,
           by rw [jsGet_objSet_ne _ _ _ _ (by decide)]; exact hup,
           fun _ => jsGet_objSet_self _ _ _,
           fun hff => absurd hf (by simp [hff])⟩
  · simp only [if_neg hf]
    exact ⟨hcr, hup, fun htt => absurd htt hf, fun _ => hid2⟩

/-- C4 witness (for the amended claim): the hook at a record without an
`id` (fresh identifier assigned) and at one with the non-empty id
`my-chosen-id` (preserved verbatim), timestamps set to the instant in both
cases. -/
theorem eventBeforeInsert_amended_witness :
    jsGet (eventBeforeInsert "2025-01-01T00:00:00.000Z" "abc123def"
        [("title", .vstr "Standup")]) "id" = .vstr "evt_abc123def" ∧
    jsGet (eventBeforeInsert "2025-01-01T00:00:00.000Z" "abc123def"
        [("id", .vstr "my-chosen-id"), ("title", .vstr "Standup")]) "id" =
      .vstr "my-chosen-id" ∧
    jsGet (eventBeforeInsert "2025-01-01T00:00:00.000Z" "abc123def"
        [("id", .vstr "my-chosen-id"), ("title", .vstr "Standup")]) "createdAt" =
      .vstr "2025-01-01T00:00:00.000Z" ∧
    jsGet (eventBeforeInsert "2025-01-01T00:00:00.000Z" "abc123def"
        [("id", .vstr "my-chosen-id"), ("title", .vstr "Standup")]) "updatedAt" =
      .vstr "2025-01-01T00:00:00.000Z" :=
  ⟨(eventBeforeInsert_amended "2025-01-01T00:00:00.000Z" "abc123def"
      [("title", .vstr "Standup")]).2.2.1 rfl,
   (eventBeforeInsert_amended "2025-01-01T00:00:00.000Z" "abc123def"
      [("id", .vstr "my-chosen-id"), ("title", .vstr "Standup")]).2.2.2 rfl,
   (eventBeforeInsert_amended "2025-01-01T00:00:00.000Z" "abc123def"
      [("id", .vstr "my-chosen-id"), ("title", .vstr "Standup")]).1,
   (eventBeforeInsert_amended "2025-01-01T00:00:00.000Z" "abc123def"
      [("id", .vstr "my-chosen-id"), ("title", .vstr "Standup")]).2.1⟩

/-- C1 counterexample: the operation of `GET /api/events/{id}`
(`getCalendarEvent`) is not among the operationIds bound in the
`api.register` call of `src/app.js`, so a matched, validated request for
it is answered by the `notImplemented` mock fallback — the dispatch layer
does not invoke the get-by-id handler. -/
theorem dispatch_getEventById_unbound :
    getEventByIdOperationId ∉ registeredOperationIds ∧
    dispatchMatchedValidated getEventByIdOperationId =
      DispatchAction.respondMock "getCalendarEvent" ∧
    dispatchMatchedValidated getEventByIdOperationId ≠
      DispatchAction.invokeHandler "getCalendarEvent" := by decide

/-- C1 (amended): for every request that matches a declared operation and
passes validation, the dispatch layer invokes the bound handler when one
is registered for the operationId; `GET /api/events/{id}` has no
registered handler in `src/app.js`, so dispatch answers it with the
schema-derived mock instead; the (unregistered) get-by-id handler itself
returns 200 with `{event, message}` when the event exists and 404 when it
does not. -/
theorem dispatch_invokes_registered_handler (opId id : String) (event : Obj)
    (hreg : opId ∈ registeredOperationIds) :
    dispatchMatchedValidated opId = DispatchAction.invokeHandler opId ∧
    dispatchMatchedValidated getEventByIdOperationId =
      DispatchAction.respondMock getEventByIdOperationId ∧
    (getCalendarEvent id (.ok (some event))).status = 200 ∧
    (getCalendarEvent id (.ok (some event))).body =
      [("event", .vobj event),
       ("message", .vstr "Event retrieved successfully")] ∧
    (getCalendarEvent id (.ok none)).status = 404 := by
  refine ⟨?_, by decide, rfl, rfl, rfl⟩
  simp [dispatchMatchedValidated, hreg]

/-- C1 witness (for the amended claim): the registered list operation is
dispatched to its handler, and the get-by-id handler at a concrete id
returns 200 for a present event. -/
theorem dispatch_invokes_registered_handler_witness :
    dispatchMatchedValidated "getCalendarEvents" =
      DispatchAction.invokeHandler "getCalendarEvents" ∧
    (getCalendarEvent "evt_123" (.ok (some [("id", .vstr "evt_123")]))).status
      = 200 :=
  ⟨(dispatch_invokes_registered_handler "getCalendarEvents" "evt_123"
      [("id", .vstr "evt_123")] (by decide)).1,
   (dispatch_invokes_registered_handler "getCalendarEvents" "evt_123"
      [("id", .vstr "evt_123")] (by decide)).2.2.1⟩

end CalendarAppApi
